import Mathlib

/-!
Verification of the cookie-refresh service core: the circuit breaker
(`src/helpers/CircuitBreaker.js`), the rotating retry loop
(`src/services/browser-cookies.js`), and the orchestrator
(`CookieRefreshService`).  Each JavaScript function is shallowly embedded
as an executable Lean definition; timestamps are milliseconds as `Nat`,
and the outcome of an asynchronous operation (already resolved or already
rejected) is passed in explicitly.
-/

namespace CookieService

/-- Does `pat` occur at the head of `s`? -/
def charsStartWith : List Char → List Char → Bool
  | [], _ => true
  | _ :: _, [] => false
  | a :: as, b :: bs => a == b && charsStartWith as bs

/-- Does `pat` occur anywhere in `s`? -/
def charsContain (pat : List Char) : List Char → Bool
  | [] => pat.isEmpty
  | c :: cs => charsStartWith pat (c :: cs) || charsContain pat cs

/-- `String.includes(pat)` of JavaScript: `s` contains `pat` as a substring. -/
def strIncludes (s pat : String) : Bool :=
  charsContain pat.toList s.toList

/-- `String.split(sep)` of JavaScript for a one-character separator. -/
def splitOnChar (sep : Char) : List Char → List (List Char)
  | [] => [[]]
  | c :: cs =>
      let r := splitOnChar sep cs
      if c == sep then
        [] :: r
      else
        match r with
        | [] => [[c]]
        | g :: gs => (c :: g) :: gs

/-! ## CircuitBreaker (`src/helpers/CircuitBreaker.js`) -/

inductive CBState where
  | CLOSED
  | OPEN
  | HALF_OPEN
deriving DecidableEq, Repr

structure CircuitBreaker where
  failureThreshold : Nat
  resetTimeout : Nat
  failures : Nat
  /-- `lastFailureTime` starts as `null`; `none` is coerced to `0` where the
  JavaScript arithmetic coerces `null` to `0`. -/
  lastFailureTime : Option Nat
  state : CBState
  successCount : Nat
deriving DecidableEq, Repr

/-- The constructor: `failures = 0`, `lastFailureTime = null`, state CLOSED. -/
def CircuitBreaker.init (failureThreshold resetTimeout : Nat) : CircuitBreaker :=
  { failureThreshold := failureThreshold
    resetTimeout := resetTimeout
    failures := 0
    lastFailureTime := none
    state := .CLOSED
    successCount := 0 }

/-- `onSuccess()`: reset failure count, bump success count, HALF_OPEN → CLOSED. -/
def CircuitBreaker.onSuccess (cb : CircuitBreaker) : CircuitBreaker :=
  { cb with
    failures := 0
    successCount := cb.successCount + 1
    state := if cb.state = .HALF_OPEN then .CLOSED else cb.state }

/-- `onFailure()` at time `now`: increment failures, record the failure time,
and open the breaker once `failures ≥ failureThreshold`. -/
def CircuitBreaker.onFailure (cb : CircuitBreaker) (now : Nat) : CircuitBreaker :=
  let cb' := { cb with failures := cb.failures + 1, lastFailureTime := some now }
  if cb'.failures ≥ cb'.failureThreshold then { cb' with state := .OPEN } else cb'

/-- Result of `execute(operation)`: the operation's resolution, the operation's
rejection (re-raised), or an immediate circuit-open rejection. -/
inductive ExecOutcome (ε α : Type) where
  | ok (a : α)
  | opError (e : ε)
  | circuitOpen
deriving DecidableEq, Repr

/-- `execute(operation)` at time `now`, where `op` is the outcome the awaited
operation would produce.  When OPEN: transition to HALF_OPEN if the reset
timeout has elapsed since the last failure, otherwise reject without running
the operation.  Then run the operation, routing success through `onSuccess`
and failure through `onFailure` before re-raising. -/
def CircuitBreaker.execute (cb : CircuitBreaker) (now : Nat) (op : Except ε α) :
    CircuitBreaker × ExecOutcome ε α :=
  if cb.state = .OPEN ∧ ¬ now - cb.lastFailureTime.getD 0 > cb.resetTimeout then
    (cb, .circuitOpen)
  else
    let cb' := if cb.state = .OPEN then { cb with state := .HALF_OPEN } else cb
    match op with
    | .ok a => (cb'.onSuccess, .ok a)
    | .error e => (cb'.onFailure now, .opError e)

/-- `allowsRequests()`: non-mutating pre-flight check. -/
def CircuitBreaker.allowsRequests (cb : CircuitBreaker) (now : Nat) : Bool :=
  if cb.state = .CLOSED ∨ cb.state = .HALF_OPEN then
    true
  else if cb.state = .OPEN then
    now - cb.lastFailureTime.getD 0 > cb.resetTimeout
  else
    false

/-- `reset()`: administrative override back to the initial counters. -/
def CircuitBreaker.reset (cb : CircuitBreaker) : CircuitBreaker :=
  { cb with state := .CLOSED, failures := 0, successCount := 0, lastFailureTime := none }

/-- Fold a sequence of `execute` calls (each an observation time paired with
the operation outcome) from a starting breaker state. -/
def CircuitBreaker.runSeq (cb : CircuitBreaker) (steps : List (Nat × Except Unit Unit)) :
    CircuitBreaker :=
  steps.foldl (fun acc step => (acc.execute step.1 step.2).1) cb

/-! ## Rotating retry loop (`src/services/browser-cookies.js`) -/

namespace BrowserCookies

/-- `CONFIG.COOKIE_REFRESH_INTERVAL` local to `browser-cookies.js`: 30 minutes. -/
def COOKIE_REFRESH_INTERVAL : Int := 30 * 60 * 1000

/-- `CONFIG.MAX_REFRESH_RETRIES` local to `browser-cookies.js`. -/
def MAX_REFRESH_RETRIES : Nat := 10

/-- One stored cookie; only the `expiry` field (seconds, read back multiplied
by 1000) is observed by the refresh logic.  `none` models an absent field. -/
structure Cookie where
  expiry : Option Int
deriving DecidableEq, Repr

/-- An entry of `proxy.js`: the raw `"host:port"` string plus credentials. -/
structure RawProxy where
  proxy : String
  username : String
  password : String
deriving DecidableEq, Repr

/-- A proxy configuration object as built by `getRandomProxy` or
`getAlternativeProxy`.  `port` is the second `:`-separated component
(`getRandomProxy` additionally applies `parseInt`; no verified property
observes the port).  `proxyStr` is the raw `proxy` string, copied into the
object only by `getAlternativeProxy`. -/
structure ProxyConfig where
  host : String
  port : Option String
  username : String
  password : String
  proxyStr : Option String
deriving DecidableEq, Repr

/-- An error thrown inside one sub-attempt, identified by its message. -/
structure SubError where
  msg : String
deriving DecidableEq, Repr

/-- The raw outcome of one sub-attempt's body (browser init, navigation,
challenge handling, capture, or the 2-minute restart timeout): either some
throw, or the `captureCookies` result (whose `cookies` may be `null`). -/
inductive AttemptStep where
  | fail (e : SubError)
  | captured (cookies : Option (List Cookie))
deriving DecidableEq, Repr

/-- `if (!cookies || cookies.length === 0) throw new Error("Failed to capture
cookies")`: turn a sub-attempt body outcome into the sub-attempt's result. -/
def attemptOutcome (s : AttemptStep) : Except SubError (List Cookie) :=
  match s with
  | .fail e => .error e
  | .captured none => .error ⟨"Failed to capture cookies"⟩
  | .captured (some cs) =>
      if cs.length = 0 then .error ⟨"Failed to capture cookies"⟩ else .ok cs

/-- State of the `cookies.json` file read by `loadCookiesFromFile`: missing,
present but unreadable or not parsing to an array, or parsed to an array. -/
inductive CookieFileFs where
  | absent
  | unparsable
  | parsed (cookies : List Cookie)
deriving DecidableEq, Repr

/-- `loadCookiesFromFile()`: `null` when the file is missing, unreadable,
unparsable, not an array, or an empty array; the cookie list otherwise. -/
def loadCookiesFromFile : CookieFileFs → Option (List Cookie)
  | .absent => none
  | .unparsable => none
  | .parsed cs => if cs.length = 0 then none else some cs

/-- Environment of one `refreshCookies` run: the stored-cookie file, the
outcome of each sub-attempt's body, the `proxy.js` list, and the random
choices and database answers consumed on rotation at each retry index. -/
structure RetryEnv where
  cookieFile : CookieFileFs
  attempt : Nat → AttemptStep
  proxies : List RawProxy
  altProxyIdx : Nat → Nat
  /-- the alternative-event aggregate result at retry `k`; `none` models a
  failed database query (both are answered by returning the original id) -/
  altEvent : Nat → Option (List String)
  altEventIdx : Nat → Nat

/-- `existingCookies[0]?.expiry ? existingCookies[0].expiry * 1000 - Date.now()
: 0` — `0` also when the field holds the falsy value `0`. -/
def cookieAge (cs : List Cookie) (now : Int) : Int :=
  match cs.head? with
  | some c =>
      match c.expiry with
      | some e => if e = 0 then 0 else e * 1000 - now
      | none => 0
  | none => 0

/-- The cached-cookie short-circuit test run on the first sub-attempt:
a non-null stored set with at least 3 cookies whose computed `cookieAge`
is strictly between 0 and the refresh interval. -/
def cachedHit (stored : Option (List Cookie)) (now : Int) : Bool :=
  match stored with
  | some cs =>
      cs.length ≥ 3 && 0 < cookieAge cs now && cookieAge cs now < COOKIE_REFRESH_INTERVAL
  | none => false

/-- `generateAlternativeEventId(original)`: pick a random entry of the
aggregate result, or return the original id when the query fails or comes
back empty. -/
def generateAlternativeEventId (original : String) (dbResult : Option (List String))
    (pick : Nat) : String :=
  match dbResult with
  | none => original
  | some [] => original
  | some (e :: es) => (e :: es).getD (pick % (e :: es).length) e

/-- `const [host, port] = selectedProxy.proxy.split(':')`. -/
def splitProxy (s : String) : String × Option String :=
  let parts := (splitOnChar ':' s.toList).map String.mk
  (parts.headD "", parts[1]?)

/-- `getAlternativeProxy(currentProxy)`: filter the current proxy out of the
list when the current object carries a truthy `proxy` string, then pick a
random remaining entry; `null` when none remain (or the list is empty). -/
def getAlternativeProxy (proxies : List RawProxy) (idx : Nat)
    (current : Option ProxyConfig) : Option ProxyConfig :=
  if proxies.isEmpty then
    none
  else
    let available : List RawProxy :=
      match current with
      | some c =>
          match c.proxyStr with
          | some s => if s ≠ "" then proxies.filter (fun p => p.proxy ≠ s) else proxies
          | none => proxies
      | none => proxies
    match available with
    | [] => none
    | p :: ps =>
        let r := (p :: ps).getD (idx % (p :: ps).length) p
        let hp := splitProxy r.proxy
        some { host := hp.1, port := hp.2, username := r.username,
               password := r.password, proxyStr := some r.proxy }

/-- The inputs the next sub-attempt starts with after a failure at retry index
`rc`.  The rotation block runs only when the error message contains
`"browser restart required"` or `"timeout"` and retries remain; it keeps the
previous proxy when `getAlternativeProxy` yields `null` (a freshly built
object is never reference-equal to the current one, so the source's
`newProxy !== currentProxy` guard is always true when non-null), and keeps
the previous event id when the alternative is empty or identical. -/
def nextInputs (env : RetryEnv) (rc : Nat) (e : SubError) (eventId : String)
    (proxy : Option ProxyConfig) : String × Option ProxyConfig :=
  if (strIncludes e.msg "browser restart required" || strIncludes e.msg "timeout")
      && rc < MAX_REFRESH_RETRIES then
    let proxy' :=
      match getAlternativeProxy env.proxies (env.altProxyIdx rc) proxy with
      | some p => some p
      | none => proxy
    let newE := generateAlternativeEventId eventId (env.altEvent rc) (env.altEventIdx rc)
    let eventId' := if newE ≠ "" ∧ newE ≠ eventId then newE else eventId
    (eventId', proxy')
  else
    (eventId, proxy)

/-- Record of one driver invocation: the retry index it ran at and the event
id and proxy it was given. -/
structure SubAttempt where
  idx : Nat
  eventId : String
  proxy : Option ProxyConfig
deriving DecidableEq, Repr

/-- Result of a `refreshCookies` run: the cached short-circuit, a fresh
capture, or the final thrown error. -/
inductive RefreshResult where
  | cached (cookies : List Cookie)
  | ok (cookies : List Cookie)
  | error (e : SubError)
deriving DecidableEq, Repr

/-- The `while (retryCount <= CONFIG.MAX_REFRESH_RETRIES)` loop of
`refreshCookies`, returning the result together with the trace of driver
invocations.  The `fuel` argument is a structural-termination bound only
(each iteration increments `retryCount` and the loop re-checks the bound, so
any `fuel ≥ MAX_REFRESH_RETRIES + 2 - retryCount` never runs out); every
guard of the source is kept. -/
def refreshLoopAux (env : RetryEnv) (now : Int) :
    Nat → Nat → String → Option ProxyConfig → Option SubError →
    RefreshResult × List SubAttempt
  | 0, _, _, _, lastError =>
      (.error (lastError.getD ⟨"Cookie refresh failed after all retries"⟩), [])
  | fuel + 1, retryCount, eventId, proxy, lastError =>
      if retryCount ≤ MAX_REFRESH_RETRIES then
        if retryCount = 0 ∧ cachedHit (loadCookiesFromFile env.cookieFile) now then
          (.cached ((loadCookiesFromFile env.cookieFile).getD []), [])
        else
          let invocation : SubAttempt := ⟨retryCount, eventId, proxy⟩
          match attemptOutcome (env.attempt retryCount) with
          | .ok cs => (.ok cs, [invocation])
          | .error e =>
              let next := nextInputs env retryCount e eventId proxy
              let rc' := retryCount + 1
              if rc' > MAX_REFRESH_RETRIES then
                (.error e, [invocation])
              else
                let rest := refreshLoopAux env now fuel rc' next.1 next.2 (some e)
                (rest.1, invocation :: rest.2)
      else
        (.error (lastError.getD ⟨"Cookie refresh failed after all retries"⟩), [])

/-- `refreshCookies(eventId, proxy)` of `browser-cookies.js`. -/
def refreshCookies (env : RetryEnv) (now : Int) (eventId : String)
    (proxy : Option ProxyConfig) : RefreshResult × List SubAttempt :=
  refreshLoopAux env now (MAX_REFRESH_RETRIES + 2) 0 eventId proxy none

end BrowserCookies

/-! ## Attempt ledger (`src/helpers/CookieRefreshTracker.js`) and orchestrator
(`CookieRefreshService`) -/

namespace Service

open BrowserCookies

inductive RecStatus where
  | in_progress
  | success
  | failed
deriving DecidableEq, Repr

/-- One `CookieRefresh` document.  `refreshId` models `crypto.randomUUID()`
as a number drawn from the service's counter. -/
structure AttemptRecord where
  refreshId : Nat
  status : RecStatus
  eventId : String
  startTime : Int
  proxyStr : String
  completionTime : Option Int
  nextScheduledRefresh : Option Int
  cookieCount : Option Nat
  retryCount : Option Nat
  errorMessage : Option String
deriving DecidableEq, Repr

/-- The `proxyString` computed by `startRefresh`: `host:port` when the proxy
object has a truthy `proxy` string or a truthy `host`, else `'no_proxy'`. -/
def proxyString (proxy : Option ProxyConfig) : String :=
  match proxy with
  | none => "no_proxy"
  | some p =>
      if p.proxyStr.getD "" ≠ "" ∨ p.host ≠ "" then
        p.host ++ ":" ++ p.port.getD "undefined"
      else
        "no_proxy"

/-- `CookieRefreshTracker.startRefresh`: create an `in_progress` record. -/
def startRefresh (ledger : List AttemptRecord) (id : Nat) (eventId : String)
    (proxy : Option ProxyConfig) (now : Int) : List AttemptRecord :=
  ledger ++ [{ refreshId := id, status := .in_progress, eventId := eventId,
               startTime := now, proxyStr := proxyString proxy,
               completionTime := none, nextScheduledRefresh := none,
               cookieCount := none, retryCount := none, errorMessage := none }]

/-- `findOneAndUpdate` keyed on `refreshId`: update the first matching record. -/
def updateRecord (ledger : List AttemptRecord) (id : Nat)
    (f : AttemptRecord → AttemptRecord) : List AttemptRecord :=
  match ledger with
  | [] => []
  | r :: rs => if r.refreshId = id then f r :: rs else r :: updateRecord rs id f

/-- `CookieRefreshTracker.markSuccess`: terminal success update; the next
scheduled refresh is 15 minutes after completion. -/
def markSuccess (ledger : List AttemptRecord) (id : Nat) (cookieCount retryCount : Nat)
    (now : Int) : List AttemptRecord :=
  updateRecord ledger id fun r =>
    { r with status := .success, completionTime := some now,
             nextScheduledRefresh := some (now + 15 * 60 * 1000),
             cookieCount := some cookieCount, retryCount := some retryCount }

/-- `CookieRefreshTracker.markFailed`: terminal failure update; the next
scheduled refresh is only 5 minutes after completion. -/
def markFailed (ledger : List AttemptRecord) (id : Nat) (errorMessage : String)
    (retryCount : Nat) (now : Int) : List AttemptRecord :=
  updateRecord ledger id fun r =>
    { r with status := .failed, completionTime := some now,
             nextScheduledRefresh := some (now + 5 * 60 * 1000),
             retryCount := some retryCount, errorMessage := some errorMessage }

/-- A session snapshot as written by `saveSession` (the opaque fingerprint
and user-agent fields are not observed by any verified property). -/
structure Session where
  cookies : List Cookie
  eventId : String
  timestamp : Int
deriving DecidableEq, Repr

/-- `saveSession(sessionData)`: read and parse `sessions.json` (the inner
catch turns any read or parse failure into the empty list), `unshift` the new
snapshot, keep the first 10, and write the file back; the outer catch logs a
write failure and returns normally, leaving the file as it was.  The result
is the file's content afterwards; an `.error` result would model a throw. -/
def saveSession (oldContent : List Session) (read : Except String (List Session))
    (writeOk : Bool) (data : Session) : Except String (List Session) :=
  let sessions : List Session :=
    match read with
    | .ok l => l
    | .error _ => []
  let sessions' := (data :: sessions).take 10
  let written : Except String (List Session) :=
    if writeOk then .ok sessions' else .error "Failed to save session"
  match written with
  | .ok l => .ok l
  | .error _ => .ok oldContent

/-- `getRandomEventId()`: the `$sample`d eligible event, or a thrown
`'No events found in database'` when the aggregate comes back empty (a
database error is likewise re-thrown by the catch). -/
def getRandomEventId (sample : Option String) : Except SubError String :=
  match sample with
  | some e => .ok e
  | none => .error ⟨"No events found in database"⟩

/-- `getRandomProxy()` of the service: `null` when the list is empty,
otherwise a random entry parsed into a config (the catch also returns
`null`, never throws). -/
def getRandomProxy (proxies : List RawProxy) (idx : Nat) : Option ProxyConfig :=
  match proxies with
  | [] => none
  | p :: ps =>
      let r := (p :: ps).getD (idx % (p :: ps).length) p
      let hp := splitProxy r.proxy
      some { host := hp.1, port := hp.2, username := r.username,
             password := r.password, proxyStr := none }

/-- What `performCookieRefresh` resolves with on success. -/
structure PerformResult where
  cookieCount : Nat
  retryCount : Nat
  cookies : List Cookie
deriving DecidableEq, Repr

/-- Environment of one logical acquisition: the shared clock, the oracles
behind every awaited collaborator, and the callers that enqueue while this
run is in flight. -/
structure RunEnv where
  now : Nat
  randomEvent : Option String
  proxyIdx : Nat
  retry : RetryEnv
  /-- `fs.writeFile(cookiesPath, ...)` rejection, re-thrown by `saveCookies` -/
  cookiesWriteError : Option String
  sessionsRead : Except String (List Session)
  sessionsWriteOk : Bool
  arrivals : List Nat

/-- Mutable state of a `CookieRefreshService` instance together with the two
data files it owns. -/
structure ServiceState where
  isRefreshing : Bool
  refreshQueue : List Nat
  circuitBreaker : CircuitBreaker
  ledger : List AttemptRecord
  cookiesFile : Option (List Cookie)
  sessionsFile : List Session
  /-- the next `crypto.randomUUID()` drawn by `startRefresh` -/
  nextRefreshId : Nat
deriving DecidableEq, Repr

/-- `performCookieRefresh(eventId, proxy)`: run the browser-level
`refreshCookies`; on a non-null result save the cookie file when the list is
non-empty (`saveCookies` re-throws a write failure), save the session
snapshot (never throws), and resolve with `retryCount` hardcoded to `0`
(the source comment: `refreshCookies` handles retries internally). -/
def performCookieRefresh (env : RunEnv) (eventId : String) (proxy : Option ProxyConfig)
    (cookiesFile : Option (List Cookie)) (sessionsFile : List Session) :
    Except SubError (PerformResult × Option (List Cookie) × List Session) :=
  match (BrowserCookies.refreshCookies env.retry (env.now : Int) eventId proxy).1 with
  | .error e => .error e
  | .cached cs | .ok cs =>
      let fileStep : Except SubError (Option (List Cookie)) :=
        if cs.length > 0 then
          match env.cookiesWriteError with
          | some msg => .error ⟨msg⟩
          | none => .ok (some cs)
        else
          .ok cookiesFile
      match fileStep with
      | .error e => .error e
      | .ok cookiesFile' =>
          let data : Session := ⟨cs, eventId, (env.now : Int)⟩
          let sessionsFile' :=
            match saveSession sessionsFile env.sessionsRead env.sessionsWriteOk data with
            | .ok l => l
            | .error _ => sessionsFile
          .ok (⟨cs.length, 0, cs⟩, cookiesFile', sessionsFile')

/-- `processQueue(error, result)`: snapshot the queue, clear it, then settle
every snapshotted caller with the one outcome. -/
def processQueue (queue : List Nat) (outcome : Except SubError PerformResult) :
    List (Nat × Except SubError PerformResult) × List Nat :=
  (queue.map fun c => (c, outcome), [])

instance {ε α : Type} [DecidableEq ε] [DecidableEq α] : DecidableEq (Except ε α) := fun a b =>
  match a, b with
  | .ok x, .ok y => if h : x = y then .isTrue (by rw [h]) else .isFalse (by simp [h])
  | .error x, .error y => if h : x = y then .isTrue (by rw [h]) else .isFalse (by simp [h])
  | .ok _, .error _ => .isFalse (by simp)
  | .error _, .ok _ => .isFalse (by simp)

/-- What `refreshCookies` gives its own caller: a parked queue entry, or the
run's resolution/rejection. -/
inductive CallResult where
  | queued
  | done (r : Except SubError PerformResult)
deriving DecidableEq, Repr

/-- `CookieRefreshService.refreshCookies(eventId, proxy)`.  A call while a
refresh is in flight pushes the caller onto the queue and returns a pending
promise.  Otherwise the run sets `isRefreshing`, and the callers of
`env.arrivals` enqueue at its awaits, so the queue the final `processQueue`
snapshots is the entry queue extended by them.  The body mirrors the source:
pre-flight `allowsRequests` check (thrown before any record exists), event
and proxy resolution (an empty-string `eventId` argument is falsy and also
falls through to `getRandomEventId`), `startRefresh`,
`circuitBreaker.execute` around `performCookieRefresh`, then the terminal
ledger update, `processQueue` with this run's own outcome, and
`isRefreshing := false` in `finally`.  The third component lists the queued
callers' settlements. -/
def refreshCookiesService (s : ServiceState) (caller : Nat) (eventIdArg : Option String)
    (proxyArg : Option ProxyConfig) (env : RunEnv) :
    ServiceState × CallResult × List (Nat × Except SubError PerformResult) :=
  if s.isRefreshing then
    ({ s with refreshQueue := s.refreshQueue ++ [caller] }, .queued, [])
  else
    let queue := s.refreshQueue ++ env.arrivals
    if s.circuitBreaker.allowsRequests env.now = false then
      let e : SubError := ⟨"Circuit breaker is open - too many recent failures"⟩
      let pq := processQueue queue (.error e)
      ({ s with isRefreshing := false, refreshQueue := pq.2 }, .done (.error e), pq.1)
    else
      let selectedEventId? : Except SubError String :=
        match eventIdArg with
        | some e => if e ≠ "" then .ok e else getRandomEventId env.randomEvent
        | none => getRandomEventId env.randomEvent
      match selectedEventId? with
      | .error e =>
          let pq := processQueue queue (.error e)
          ({ s with isRefreshing := false, refreshQueue := pq.2 }, .done (.error e), pq.1)
      | .ok selectedEventId =>
          let selectedProxy :=
            match proxyArg with
            | some p => some p
            | none => getRandomProxy env.retry.proxies env.proxyIdx
          let rid := s.nextRefreshId
          let ledger1 := startRefresh s.ledger rid selectedEventId selectedProxy (env.now : Int)
          let op := performCookieRefresh env selectedEventId selectedProxy
                      s.cookiesFile s.sessionsFile
          let ex := s.circuitBreaker.execute env.now op
          match ex.2 with
          | .ok rcs =>
              let r := rcs.1
              let pq := processQueue queue (.ok r)
              ({ s with isRefreshing := false, refreshQueue := pq.2,
                        circuitBreaker := ex.1,
                        ledger := markSuccess ledger1 rid r.cookieCount r.retryCount
                                    (env.now : Int),
                        cookiesFile := rcs.2.1, sessionsFile := rcs.2.2,
                        nextRefreshId := rid + 1 },
               .done (.ok r), pq.1)
          | .opError e =>
              let pq := processQueue queue (.error e)
              ({ s with isRefreshing := false, refreshQueue := pq.2,
                        circuitBreaker := ex.1,
                        ledger := markFailed ledger1 rid e.msg 0 (env.now : Int),
                        nextRefreshId := rid + 1 },
               .done (.error e), pq.1)
          | .circuitOpen =>
              -- execute's own OPEN-state rejection ("Retry in N seconds"
              -- suffix elided); unreachable after a truthful pre-flight check
              -- at the same clock reading, but kept from the source
              let e : SubError := ⟨"Circuit breaker is OPEN - too many recent failures"⟩
              let pq := processQueue queue (.error e)
              ({ s with isRefreshing := false, refreshQueue := pq.2,
                        circuitBreaker := ex.1,
                        ledger := markFailed ledger1 rid e.msg 0 (env.now : Int),
                        nextRefreshId := rid + 1 },
               .done (.error e), pq.1)

/-- `CookieRefreshService.getCurrentCookies()`: return
`loadCookiesFromFile()`'s result after logging its `.length`.  When that
result is `null` the property access raises a `TypeError`, which the catch
re-raises because a `TypeError` carries no `code === 'ENOENT'`.  The body
never calls `refreshCookies`, so the service state passes through
unchanged. -/
def getCurrentCookies (s : ServiceState) (file : CookieFileFs) :
    ServiceState × Except String (List Cookie) :=
  match loadCookiesFromFile file with
  | some cs => (s, .ok cs)
  | none => (s, .error "TypeError: Cannot read properties of null (reading 'length')")

end Service

/-! ## Concrete states and environments used as witnesses and
counterexamples -/

open BrowserCookies Service

/-- A CLOSED breaker below threshold: threshold 3, 2 failures. -/
def cbClosed2 : CircuitBreaker := ⟨3, 60, 2, none, .CLOSED, 0⟩

/-- A HALF_OPEN breaker with a recorded failure time. -/
def cbHalf : CircuitBreaker := ⟨3, 60, 2, some 10, .HALF_OPEN, 0⟩

/-- A freshly constructed breaker with the configured defaults
(`FAILURE_THRESHOLD 5`, `RESET_TIMEOUT 300000`). -/
def cbFresh : CircuitBreaker := CircuitBreaker.init 5 300000

/-- An OPEN breaker whose last failure was 1 second ago: requests denied. -/
def cbOpenRecent : CircuitBreaker := ⟨5, 300000, 5, some 1000, .OPEN, 0⟩

/-- A retry environment whose driver always captures one cookie at once. -/
def envRetryOk : RetryEnv :=
  { cookieFile := .absent
    attempt := fun _ => .captured (some [⟨some 99999999⟩])
    proxies := []
    altProxyIdx := fun _ => 0
    altEvent := fun _ => none
    altEventIdx := fun _ => 0 }

/-- An idle run environment: driver succeeds immediately, one eligible event,
no proxies, session persistence healthy, one caller arriving mid-run. -/
def envIdle : RunEnv :=
  { now := 1000000
    randomEvent := some "EVT1"
    proxyIdx := 0
    retry := envRetryOk
    cookiesWriteError := none
    sessionsRead := .ok []
    sessionsWriteOk := true
    arrivals := [21, 22] }

/-- A service state with a refresh in flight and one caller already parked. -/
def sBusy : ServiceState :=
  { isRefreshing := true, refreshQueue := [11], circuitBreaker := cbFresh,
    ledger := [], cookiesFile := none, sessionsFile := [], nextRefreshId := 0 }

/-- An idle service state with a CLOSED breaker and empty ledger. -/
def sIdle : ServiceState :=
  { isRefreshing := false, refreshQueue := [], circuitBreaker := cbFresh,
    ledger := [], cookiesFile := none, sessionsFile := [], nextRefreshId := 0 }

/-- An idle service state whose breaker is OPEN with a recent failure. -/
def sOpen : ServiceState :=
  { sIdle with circuitBreaker := cbOpenRecent }

/-- A distinct error message for each sub-attempt index (no timeout marker). -/
def errFC : Nat → SubError := fun k => ⟨"capture blocked at " ++ toString k⟩

/-- A retry environment whose driver fails every sub-attempt. -/
def envRetryAllFail : RetryEnv :=
  { cookieFile := .absent
    attempt := fun k => .fail (errFC k)
    proxies := []
    altProxyIdx := fun _ => 0
    altEvent := fun _ => none
    altEventIdx := fun _ => 0 }

/-- Two stored cookies that are non-expired and younger than the refresh
interval at time 0 (`cookieAge = 1000`), yet fewer than the 3 the code
demands. -/
def storedTwo : List Cookie := [⟨some 1⟩, ⟨some 1⟩]

/-- Retry environment for the C6 counterexample: a fresh, non-empty stored
set of only two cookies; the driver succeeds immediately when invoked. -/
def envRetryTwoStored : RetryEnv :=
  { envRetryOk with cookieFile := .parsed storedTwo }

/-- A proxy list offering two distinct routes. -/
def twoProxies : List RawProxy :=
  [⟨"10.0.0.1:8080", "u1", "p1"⟩, ⟨"10.0.0.2:8080", "u2", "p2"⟩]

/-- Retry environment for the C4 counterexample: the first sub-attempt fails
with a non-timeout error while alternative routes and an alternative event id
are available; the second sub-attempt succeeds. -/
def envRetryNonTimeout : RetryEnv :=
  { cookieFile := .absent
    attempt := fun k => if k = 0 then .fail ⟨"Failed to capture cookies"⟩
                        else .captured (some [⟨some 7⟩])
    proxies := twoProxies
    altProxyIdx := fun _ => 0
    altEvent := fun _ => some ["EVT2"]
    altEventIdx := fun _ => 0 }

/-- Retry environment for the C8 counterexample: the driver fails the first
two sub-attempts (non-timeout errors, so no rotation) and succeeds on the
third. -/
def envRetryThird : RetryEnv :=
  { cookieFile := .absent
    attempt := fun k => if k < 2 then .fail ⟨"Failed to capture cookies"⟩
                        else .captured (some [⟨some 7⟩, ⟨some 8⟩])
    proxies := []
    altProxyIdx := fun _ => 0
    altEvent := fun _ => none
    altEventIdx := fun _ => 0 }

/-- Three stored cookies passing the code's freshness test at time 0. -/
def storedThree : List Cookie := [⟨some 1⟩, ⟨some 1⟩, ⟨some 1⟩]

/-- Retry environment whose cookie file parses to `storedThree`. -/
def envRetryThreeStored : RetryEnv :=
  { envRetryOk with cookieFile := .parsed storedThree }

/-- The 2-minute restart-timeout rejection produced inside a sub-attempt. -/
def timeoutErr : SubError :=
  ⟨"Cookie refresh timeout after 120 seconds - browser restart required"⟩

/-- Retry environment whose first sub-attempt times out while an alternative
proxy and event id are available. -/
def envRetryTimeout : RetryEnv :=
  { cookieFile := .absent
    attempt := fun k => if k = 0 then .fail timeoutErr
                        else .captured (some [⟨some 7⟩])
    proxies := twoProxies
    altProxyIdx := fun _ => 0
    altEvent := fun _ => some ["EVT2"]
    altEventIdx := fun _ => 0 }

/-- The config `getAlternativeProxy` builds from the first entry of
`twoProxies`. -/
def pxAlt : ProxyConfig :=
  ⟨"10.0.0.1", some "8080", "u1", "p1", some "10.0.0.1:8080"⟩

/-- A clock reading only 1 second after `cbOpenRecent`'s last failure. -/
def envEarly : RunEnv := { envIdle with now := 2000 }

/-- Run environment whose driver needs three sub-attempts. -/
def envThird : RunEnv := { envIdle with retry := envRetryThird }

/-- Run environment whose session-snapshot write fails. -/
def envSessFail : RunEnv := { envIdle with sessionsWriteOk := false }

/-- The ledger record left by the `envThird` run: marked success with the
hardcoded `retryCount = 0` although three sub-attempts ran. -/
def recC8 : AttemptRecord :=
  ⟨0, .success, "EVT1", 1000000, "no_proxy", some 1000000, some 1900000,
   some 2, some 0, none⟩

/-- A session snapshot used to exercise `saveSession`. -/
def sessDummy : Session := ⟨[], "EVT1", 0⟩

/-- Run environment whose eligible-event sample is empty. -/
def envNoEvent : RunEnv := { envIdle with randomEvent := none }

/-! ## Theorems -/

/-- **C2.** For every `execute()` step (hence along every sequence of steps
from the initial CLOSED state): (a) when the operation runs and fails, the
breaker ends OPEN exactly when the consecutive-failure count reaches the
threshold — in particular from CLOSED a failure opens it iff
`failures + 1 ≥ failureThreshold`; (b) a non-CLOSED state moves to CLOSED
only through a success observed while the breaker is (or has just become)
HALF_OPEN; (c) a success resets the failure count to 0; (d) a failure
increments the count and records the failure time, and the error is
re-raised as the call's outcome. -/
theorem C2_circuit_breaker_state_machine (cb : CircuitBreaker) (now : Nat)
    (op : Except Unit Unit) :
    ((cb.execute now op).2 = .opError () →
      ((cb.execute now op).1.state = .OPEN ↔ cb.failures + 1 ≥ cb.failureThreshold)) ∧
    (cb.state ≠ .CLOSED → (cb.execute now op).1.state = .CLOSED →
      op = .ok () ∧ (cb.state = .HALF_OPEN ∨
        (cb.state = .OPEN ∧ now - cb.lastFailureTime.getD 0 > cb.resetTimeout))) ∧
    ((cb.execute now op).2 = .ok () → (cb.execute now op).1.failures = 0) ∧
    ((cb.execute now op).2 = .opError () →
      (cb.execute now op).1.failures = cb.failures + 1 ∧
      (cb.execute now op).1.lastFailureTime = some now ∧ op = .error ()) := by
  rcases cb with ⟨thr, rt, f, lt, st, sc⟩
  rcases op with e | a <;> cases st <;>
    simp only [CircuitBreaker.execute, CircuitBreaker.onSuccess, CircuitBreaker.onFailure] <;>
    split <;> simp_all <;>
      first
        | omega
        | (split <;> simp_all <;> omega)

/-- Witness for C2: each hypothesis discharged at a concrete breaker. -/
theorem C2_circuit_breaker_state_machine_witness :
    ((cbClosed2.execute 100 (Except.error () : Except Unit Unit)).1.state = CBState.OPEN ↔
      cbClosed2.failures + 1 ≥ cbClosed2.failureThreshold) ∧
    (Except.ok () = (Except.ok () : Except Unit Unit) ∧
      (cbHalf.state = CBState.HALF_OPEN ∨
        (cbHalf.state = CBState.OPEN ∧
          100 - cbHalf.lastFailureTime.getD 0 > cbHalf.resetTimeout))) ∧
    ((cbHalf.execute 100 (Except.ok () : Except Unit Unit)).1.failures = 0) ∧
    ((cbClosed2.execute 100 (Except.error () : Except Unit Unit)).1.failures
        = cbClosed2.failures + 1 ∧
      (cbClosed2.execute 100 (Except.error () : Except Unit Unit)).1.lastFailureTime
        = some 100 ∧
      Except.error () = (Except.error () : Except Unit Unit)) :=
  ⟨(C2_circuit_breaker_state_machine cbClosed2 100 (.error ())).1 (by decide),
   (C2_circuit_breaker_state_machine cbHalf 100 (.ok ())).2.1 (by decide) (by decide),
   (C2_circuit_breaker_state_machine cbHalf 100 (.ok ())).2.2.1 (by decide),
   (C2_circuit_breaker_state_machine cbClosed2 100 (.error ())).2.2.2 (by decide)⟩

/-- **C1.** A `refreshCookies` call while a refresh is in flight only appends
the caller to the wait queue (no new acquisition starts: every other field of
the state is untouched and no settlement happens); a call that runs settles
every caller queued at completion time with exactly its own single outcome,
and leaves the queue empty and the busy flag cleared. -/
theorem C1_single_flight_queue (s : ServiceState) (caller : Nat)
    (ev : Option String) (px : Option ProxyConfig) (env : RunEnv) :
    (s.isRefreshing = true →
      refreshCookiesService s caller ev px env =
        ({ s with refreshQueue := s.refreshQueue ++ [caller] }, .queued, [])) ∧
    (s.isRefreshing = false →
      ∃ out : Except SubError PerformResult,
        (refreshCookiesService s caller ev px env).2.1 = .done out ∧
        (refreshCookiesService s caller ev px env).2.2 =
          (s.refreshQueue ++ env.arrivals).map (fun c => (c, out)) ∧
        (refreshCookiesService s caller ev px env).1.refreshQueue = [] ∧
        (refreshCookiesService s caller ev px env).1.isRefreshing = false) := by
  constructor
  · intro h
    simp [refreshCookiesService, h]
  · intro h
    simp only [refreshCookiesService, h, Bool.false_eq_true, if_false]
    split
    · exact ⟨_, rfl, rfl, rfl, rfl⟩
    · split
      · exact ⟨_, rfl, rfl, rfl, rfl⟩
      · split
        · exact ⟨_, rfl, rfl, rfl, rfl⟩
        · exact ⟨_, rfl, rfl, rfl, rfl⟩
        · exact ⟨_, rfl, rfl, rfl, rfl⟩

/-- Helper: from retry index `rc` the loop performs at most
`MAX_REFRESH_RETRIES + 1 - rc` further driver invocations. -/
theorem refreshLoopAux_trace_len (env : RetryEnv) (now : Int) :
    ∀ (fuel rc : Nat) (ev : String) (px : Option ProxyConfig) (le : Option SubError),
      (refreshLoopAux env now fuel rc ev px le).2.length ≤
        MAX_REFRESH_RETRIES + 1 - rc := by
  intro fuel
  induction fuel with
  | zero => intro rc ev px le; simp [refreshLoopAux]
  | succ n ih =>
      intro rc ev px le
      simp only [refreshLoopAux]
      split
      · split
        · simp
        · split
          · simp only [List.length_singleton]
            omega
          · split
            · simp only [List.length_singleton]
              omega
            · simp only [List.length_cons]
              rename_i hrc _ e _ hrc'
              have h := ih (rc + 1) (nextInputs env rc e ev px).1
                (nextInputs env rc e ev px).2 (some e)
              omega
      · simp

/-- Helper: when the cache does not short-circuit and every sub-attempt from
`rc` on fails, the loop ends with the error of the last sub-attempt
(index `MAX_REFRESH_RETRIES`). -/
theorem refreshLoopAux_all_fail (env : RetryEnv) (now : Int)
    (errF : Nat → SubError)
    (hca : cachedHit (loadCookiesFromFile env.cookieFile) now = false)
    (hff : ∀ k, k ≤ MAX_REFRESH_RETRIES →
      attemptOutcome (env.attempt k) = .error (errF k)) :
    ∀ (fuel rc : Nat) (ev : String) (px : Option ProxyConfig) (le : Option SubError),
      rc ≤ MAX_REFRESH_RETRIES → MAX_REFRESH_RETRIES + 2 - rc ≤ fuel →
      (refreshLoopAux env now fuel rc ev px le).1 =
        .error (errF MAX_REFRESH_RETRIES) := by
  intro fuel
  induction fuel with
  | zero =>
      intro rc ev px le hrc hfuel
      exfalso
      omega
  | succ n ih =>
      intro rc ev px le hrc hfuel
      simp only [refreshLoopAux, if_pos hrc]
      rw [if_neg (by rintro ⟨h0, hc⟩; rw [hca] at hc; exact Bool.false_ne_true hc)]
      rw [hff rc hrc]
      dsimp only
      by_cases hlast : rc + 1 > MAX_REFRESH_RETRIES
      · rw [if_pos hlast]
        have : rc = MAX_REFRESH_RETRIES := by omega
        rw [this]
      · rw [if_neg hlast]
        exact ih (rc + 1) _ _ (some (errF rc)) (by omega) (by omega)

/-- Helper: when the cached-cookie test passes, the first loop iteration
returns the stored set without touching the driver. -/
theorem refreshLoopAux_cached (env : RetryEnv) (now : Int) (fuel : Nat)
    (ev : String) (px : Option ProxyConfig) (le : Option SubError)
    (hhit : cachedHit (loadCookiesFromFile env.cookieFile) now = true) :
    refreshLoopAux env now (fuel + 1) 0 ev px le =
      (.cached ((loadCookiesFromFile env.cookieFile).getD []), []) := by
  simp only [refreshLoopAux]
  simp [hhit, MAX_REFRESH_RETRIES]

/-- Helper: a first sub-attempt that captures cookies ends the loop at once
with a single driver invocation. -/
theorem refreshLoopAux_first_ok (env : RetryEnv) (now : Int) (fuel : Nat)
    (ev : String) (px : Option ProxyConfig) (le : Option SubError)
    (cs : List Cookie)
    (hca : cachedHit (loadCookiesFromFile env.cookieFile) now = false)
    (hok : attemptOutcome (env.attempt 0) = .ok cs) :
    refreshLoopAux env now (fuel + 1) 0 ev px le = (.ok cs, [⟨0, ev, px⟩]) := by
  simp only [refreshLoopAux]
  rw [if_pos (Nat.zero_le _),
    if_neg (by rintro ⟨_, hc⟩; rw [hca] at hc; exact Bool.false_ne_true hc), hok]

/-- Helper: `attemptOutcome` only resolves with a non-empty cookie list. -/
theorem attemptOutcome_ok_pos (a : AttemptStep) (cs : List Cookie)
    (h : attemptOutcome a = .ok cs) : 0 < cs.length := by
  unfold attemptOutcome at h
  split at h
  · simp at h
  · simp at h
  · split at h
    · simp at h
    · simp only [Except.ok.injEq] at h
      subst h
      omega

/-- Helper: `execute` resolves with `a` only when the operation itself did. -/
theorem execute_ok_of (cb : CircuitBreaker) (now : Nat) {ε α : Type}
    (op : Except ε α) (a : α) (h : (cb.execute now op).2 = .ok a) :
    op = .ok a := by
  unfold CircuitBreaker.execute at h
  split at h
  · simp at h
  · cases op with
    | ok b => simpa using h
    | error e => simp at h

/-- Helper: a successful `performCookieRefresh` reports `retryCount = 0`. -/
theorem performCookieRefresh_retryCount (env : RunEnv) (ev : String)
    (px : Option ProxyConfig) (cf : Option (List Cookie)) (sf : List Session)
    (r : PerformResult × Option (List Cookie) × List Session)
    (h : performCookieRefresh env ev px cf sf = .ok r) : r.1.retryCount = 0 := by
  unfold performCookieRefresh at h
  repeat' split at h
  all_goals simp at h
  all_goals rw [← h]

/-- Helper: updating a ledger by the id of a freshly appended record
rewrites exactly that record. -/
theorem updateRecord_append_fresh (l : List AttemptRecord) (rec : AttemptRecord)
    (f : AttemptRecord → AttemptRecord)
    (hfresh : ∀ r ∈ l, r.refreshId ≠ rec.refreshId) :
    updateRecord (l ++ [rec]) rec.refreshId f = l ++ [f rec] := by
  induction l with
  | nil => simp [updateRecord]
  | cons a as ih =>
      simp only [List.cons_append, updateRecord]
      rw [if_neg (hfresh a (List.mem_cons_self a as))]
      simp only [List.append_eq]
      rw [ih (fun r hr => hfresh r (List.mem_cons_of_mem a hr))]

/-- Helper: when the breaker is CLOSED, the cache does not hit, the first
sub-attempt captures cookies and the cookie-file write succeeds, the run
resolves with the captured artifacts (whatever the session-file outcome) and
marks the freshly created ledger record success with `cookieCount` the
capture size and `retryCount = 0`. -/
theorem run_first_attempt_success (s : ServiceState) (caller : Nat)
    (evs : String) (px : Option ProxyConfig) (env : RunEnv) (cs : List Cookie)
    (hidle : s.isRefreshing = false)
    (hstate : s.circuitBreaker.state = .CLOSED)
    (hne : evs ≠ "")
    (hca : cachedHit (loadCookiesFromFile env.retry.cookieFile)
      (env.now : Int) = false)
    (hok : attemptOutcome (env.retry.attempt 0) = .ok cs)
    (hwr : env.cookiesWriteError = none) :
    (refreshCookiesService s caller (some evs) px env).2.1 =
      .done (.ok ⟨cs.length, 0, cs⟩) ∧
    (refreshCookiesService s caller (some evs) px env).1.ledger =
      markSuccess (startRefresh s.ledger s.nextRefreshId evs
          (match px with
           | some p => some p
           | none => getRandomProxy env.retry.proxies env.proxyIdx)
          (env.now : Int))
        s.nextRefreshId cs.length 0 (env.now : Int) := by
  have hpos : 0 < cs.length := attemptOutcome_ok_pos _ cs hok
  have hloop : ∀ selPx, (BrowserCookies.refreshCookies env.retry (env.now : Int)
      evs selPx).1 = .ok cs := by
    intro selPx
    rw [BrowserCookies.refreshCookies,
      refreshLoopAux_first_ok env.retry (env.now : Int) (MAX_REFRESH_RETRIES + 1)
        evs selPx none cs hca hok]
  have hop : ∀ selPx, performCookieRefresh env evs selPx s.cookiesFile
      s.sessionsFile = .ok (⟨cs.length, 0, cs⟩, some cs,
        match saveSession s.sessionsFile env.sessionsRead env.sessionsWriteOk
          ⟨cs, evs, (env.now : Int)⟩ with
        | .ok l => l
        | .error _ => s.sessionsFile) := by
    intro selPx
    unfold performCookieRefresh
    rw [hloop selPx]
    dsimp only
    rw [if_pos hpos, hwr]
  have hallow : s.circuitBreaker.allowsRequests env.now = true := by
    unfold CircuitBreaker.allowsRequests
    simp [hstate]
  simp only [refreshCookiesService, hidle, Bool.false_eq_true, if_false,
    hallow, hne, ne_eq, not_false_iff, if_true]
  rw [hop]
  simp [CircuitBreaker.execute, hstate, CircuitBreaker.onSuccess]

/-- **C5.** The rotating retry loop performs at most
`MAX_REFRESH_RETRIES + 1` sub-attempts — with the default configuration
`10 + 1 = 11` — and when the cache does not short-circuit and every
sub-attempt fails it throws the error recorded from the last failing
sub-attempt (index `MAX_REFRESH_RETRIES`). -/
theorem C5_retry_bound_and_last_error (env : RetryEnv) (now : Int) (ev : String)
    (px : Option ProxyConfig) (errF : Nat → SubError) :
    ((BrowserCookies.refreshCookies env now ev px).2.length ≤
        MAX_REFRESH_RETRIES + 1) ∧
    (MAX_REFRESH_RETRIES + 1 = 11) ∧
    (cachedHit (loadCookiesFromFile env.cookieFile) now = false →
      (∀ k, k ≤ MAX_REFRESH_RETRIES →
        attemptOutcome (env.attempt k) = .error (errF k)) →
      (BrowserCookies.refreshCookies env now ev px).1 =
        .error (errF MAX_REFRESH_RETRIES)) := by
  refine ⟨?_, rfl, ?_⟩
  · have h := refreshLoopAux_trace_len env now (MAX_REFRESH_RETRIES + 2) 0 ev px none
    simpa [BrowserCookies.refreshCookies] using h
  · intro hca hff
    exact refreshLoopAux_all_fail env now errF hca hff _ 0 ev px none
      (Nat.zero_le _) (by omega)

/-- Witness for C5: all 11 sub-attempts of `envRetryAllFail` fail and the
loop throws the error of sub-attempt 10. -/
theorem C5_retry_bound_and_last_error_witness :
    cachedHit (loadCookiesFromFile envRetryAllFail.cookieFile) 0 = false ∧
    (BrowserCookies.refreshCookies envRetryAllFail 0 "EVT1" none).1 =
      .error (errFC MAX_REFRESH_RETRIES) :=
  ⟨rfl, (C5_retry_bound_and_last_error envRetryAllFail 0 "EVT1" none errFC).2.2
    rfl (fun _ _ => rfl)⟩

/-- **C6 counterexample.** At time 0 the stored set `storedTwo` is non-empty
and passes the freshness test (`0 < cookieAge < interval`, i.e. non-expired
and younger than the nominal refresh interval), and the call is the first
sub-attempt of a fresh acquisition — yet the loop does not return the stored
set: it invokes the driver (non-empty trace) because the code additionally
requires at least 3 stored cookies. -/
theorem C6_counterexample :
    loadCookiesFromFile envRetryTwoStored.cookieFile = some storedTwo ∧
    storedTwo ≠ [] ∧
    0 < cookieAge storedTwo 0 ∧
    cookieAge storedTwo 0 < COOKIE_REFRESH_INTERVAL ∧
    (BrowserCookies.refreshCookies envRetryTwoStored 0 "EVT1" none).2 ≠ [] ∧
    (BrowserCookies.refreshCookies envRetryTwoStored 0 "EVT1" none).1 ≠
      .cached storedTwo := by
  refine ⟨rfl, by decide, by decide, by decide, by decide, by decide⟩

/-- **C6 (amended).** If, on the first sub-attempt of a fresh logical
acquisition, the stored artifact set parses to at least **3** cookies and its
first cookie passes the freshness test (`0 < expiry·1000 − now <` the
refresh interval), the loop returns the stored set immediately with no
driver invocation. -/
theorem C6_amended_cache_short_circuit (env : RetryEnv) (now : Int) (ev : String)
    (px : Option ProxyConfig) (cs : List Cookie)
    (hload : loadCookiesFromFile env.cookieFile = some cs)
    (hlen : cs.length ≥ 3)
    (hage1 : 0 < cookieAge cs now)
    (hage2 : cookieAge cs now < COOKIE_REFRESH_INTERVAL) :
    BrowserCookies.refreshCookies env now ev px = (.cached cs, []) := by
  have hhit : cachedHit (loadCookiesFromFile env.cookieFile) now = true := by
    rw [hload]
    simp [cachedHit, decide_eq_true_eq, hlen, hage1, hage2]
  have step := refreshLoopAux_cached env now (MAX_REFRESH_RETRIES + 1) ev px none hhit
  rw [hload] at step
  simpa [BrowserCookies.refreshCookies] using step

/-- Witness for C6 (amended): three fresh stored cookies short-circuit. -/
theorem C6_amended_cache_short_circuit_witness :
    BrowserCookies.refreshCookies envRetryThreeStored 0 "EVT1" none =
      (.cached storedThree, []) :=
  C6_amended_cache_short_circuit envRetryThreeStored 0 "EVT1" none storedThree
    rfl (by decide) (by decide) (by decide)

/-- **C4 counterexample.** The first sub-attempt fails with an error whose
message carries no timeout marker, sub-attempts remain, the Route Directory
offers an alternative route and the database an alternative target — yet the
second sub-attempt begins with the same target identifier and the same
(absent) route: no rotation is requested for non-timeout failures. -/
theorem C4_counterexample :
    attemptOutcome (envRetryNonTimeout.attempt 0) =
      .error ⟨"Failed to capture cookies"⟩ ∧
    getAlternativeProxy envRetryNonTimeout.proxies 0 none ≠ none ∧
    generateAlternativeEventId "EVT1" (envRetryNonTimeout.altEvent 0) 0 = "EVT2" ∧
    (BrowserCookies.refreshCookies envRetryNonTimeout 0 "EVT1" none).2 =
      [⟨0, "EVT1", none⟩, ⟨1, "EVT1", none⟩] := by
  refine ⟨rfl, by decide, rfl, by decide⟩

/-- **C4 (amended).** After a failed sub-attempt with sub-attempts remaining,
the next sub-attempt begins with `nextInputs`, and `nextInputs` requests a
new route from the directory and a new target identifier (with the
fall-back-to-previous guards) **exactly when** the error message contains
`"browser restart required"` or `"timeout"`; for any other failure the next
sub-attempt reuses the previous route and target unchanged. -/
theorem C4_amended_rotation_on_timeout_only (env : RetryEnv) (now : Int)
    (fuel rc : Nat) (ev : String) (px : Option ProxyConfig)
    (le : Option SubError) (e : SubError)
    (hrc : rc ≤ MAX_REFRESH_RETRIES)
    (hnc : ¬ (rc = 0 ∧ cachedHit (loadCookiesFromFile env.cookieFile) now = true))
    (hatt : attemptOutcome (env.attempt rc) = .error e)
    (hmore : rc + 1 ≤ MAX_REFRESH_RETRIES) :
    (refreshLoopAux env now (fuel + 1) rc ev px le =
      ((refreshLoopAux env now fuel (rc + 1) (nextInputs env rc e ev px).1
          (nextInputs env rc e ev px).2 (some e)).1,
        ⟨rc, ev, px⟩ ::
          (refreshLoopAux env now fuel (rc + 1) (nextInputs env rc e ev px).1
            (nextInputs env rc e ev px).2 (some e)).2)) ∧
    ((strIncludes e.msg "browser restart required"
        || strIncludes e.msg "timeout") = true →
      nextInputs env rc e ev px =
        (let newE := generateAlternativeEventId ev (env.altEvent rc)
          (env.altEventIdx rc)
         ((if newE ≠ "" ∧ newE ≠ ev then newE else ev),
          match getAlternativeProxy env.proxies (env.altProxyIdx rc) px with
          | some p => some p
          | none => px))) ∧
    ((strIncludes e.msg "browser restart required"
        || strIncludes e.msg "timeout") = false →
      nextInputs env rc e ev px = (ev, px)) := by
  refine ⟨?_, ?_, ?_⟩
  · simp only [refreshLoopAux, if_pos hrc]
    rw [if_neg hnc, hatt]
    dsimp only
    rw [if_neg (by omega)]
  · intro hm
    have hlt : rc < MAX_REFRESH_RETRIES := by omega
    simp [nextInputs, hm, hlt]
  · intro hm
    simp [nextInputs, hm]

/-- Witness for C4 (amended): a timed-out first sub-attempt rotates to the
alternative event id and the alternative proxy before sub-attempt 1. -/
theorem C4_amended_rotation_on_timeout_only_witness :
    refreshLoopAux envRetryTimeout 0 11 0 "EVT1" none none =
      ((refreshLoopAux envRetryTimeout 0 10 1 "EVT2" (some pxAlt)
          (some timeoutErr)).1,
        ⟨0, "EVT1", none⟩ ::
          (refreshLoopAux envRetryTimeout 0 10 1 "EVT2" (some pxAlt)
            (some timeoutErr)).2) := by
  have h := C4_amended_rotation_on_timeout_only envRetryTimeout 0 10 0 "EVT1"
    none none timeoutErr (by decide) (by decide) rfl (by decide)
  have hn : nextInputs envRetryTimeout 0 timeoutErr "EVT1" none =
      ("EVT2", some pxAlt) := by decide
  rw [h.1, hn]

/-- Helper: marking success on a ledger extended with a fresh `in_progress`
record rewrites exactly that record. -/
theorem markSuccess_startRefresh (l : List AttemptRecord) (id : Nat)
    (ev : String) (px : Option ProxyConfig) (t1 t2 : Int) (cc rc : Nat)
    (hfresh : ∀ r ∈ l, r.refreshId ≠ id) :
    markSuccess (startRefresh l id ev px t1) id cc rc t2 =
      l ++ [{ refreshId := id, status := .success, eventId := ev,
              startTime := t1, proxyStr := proxyString px,
              completionTime := some t2,
              nextScheduledRefresh := some (t2 + 15 * 60 * 1000),
              cookieCount := some cc, retryCount := some rc,
              errorMessage := none }] := by
  unfold markSuccess startRefresh
  exact updateRecord_append_fresh l _ _ hfresh

/-- **C3 counterexample.** With an OPEN breaker denying requests, the
acquire call fails fast with the circuit-open error but no AttemptRecord is
created at all: the ledger stays empty, contradicting the claim that an
`in_progress` record is created first and then marked failed with zero
sub-attempts. -/
theorem C3_counterexample :
    sOpen.circuitBreaker.allowsRequests envEarly.now = false ∧
    (refreshCookiesService sOpen 7 none none envEarly).2.1 =
      .done (.error ⟨"Circuit breaker is open - too many recent failures"⟩) ∧
    (refreshCookiesService sOpen 7 none none envEarly).1.ledger = [] := by
  decide

/-- **C3 (amended).** The Orchestrator checks `allowsRequests()` *before*
creating any AttemptRecord: when the breaker denies requests the acquisition
fails fast with the circuit-open error and the ledger is left unchanged — no
record is created and none is marked failed. -/
theorem C3_amended_precheck_creates_no_record (s : ServiceState) (caller : Nat)
    (ev : Option String) (px : Option ProxyConfig) (env : RunEnv)
    (hidle : s.isRefreshing = false)
    (hdeny : s.circuitBreaker.allowsRequests env.now = false) :
    (refreshCookiesService s caller ev px env).2.1 =
      .done (.error ⟨"Circuit breaker is open - too many recent failures"⟩) ∧
    (refreshCookiesService s caller ev px env).1.ledger = s.ledger := by
  simp [refreshCookiesService, hidle, hdeny]

/-- Witness for C3 (amended): the denied run at `sOpen`. -/
theorem C3_amended_precheck_creates_no_record_witness :
    (refreshCookiesService sOpen 8 none none envEarly).2.1 =
      .done (.error ⟨"Circuit breaker is open - too many recent failures"⟩) ∧
    (refreshCookiesService sOpen 8 none none envEarly).1.ledger = sOpen.ledger :=
  C3_amended_precheck_creates_no_record sOpen 8 none none envEarly rfl (by decide)

/-- **C7 counterexample.** With no stored artifact set,
`getCurrentCookies()` does not auto-trigger an acquisition: the service
state passes through untouched (still idle, ledger empty) and the call
fails with the `TypeError` raised by reading `.length` of `null`. -/
theorem C7_counterexample :
    loadCookiesFromFile .absent = none ∧
    (getCurrentCookies sIdle .absent).1 = sIdle ∧
    (getCurrentCookies sIdle .absent).1.isRefreshing = false ∧
    (getCurrentCookies sIdle .absent).2 =
      .error "TypeError: Cannot read properties of null (reading 'length')" := by
  decide

/-- **C7 (amended).** `getCurrentCookies()` returns the persisted artifact
set when one loads; when none loads it throws (the `TypeError` from reading
`.length` of `null`), and in neither case does it trigger an acquisition:
the service state always passes through unchanged. -/
theorem C7_amended_getCurrentCookies (s : ServiceState) (file : CookieFileFs) :
    (getCurrentCookies s file).1 = s ∧
    (∀ cs, loadCookiesFromFile file = some cs →
      (getCurrentCookies s file).2 = .ok cs) ∧
    (loadCookiesFromFile file = none →
      (getCurrentCookies s file).2 =
        .error "TypeError: Cannot read properties of null (reading 'length')") := by
  unfold getCurrentCookies
  cases h : loadCookiesFromFile file <;> simp [h]

/-- Witness for C7 (amended): a parsed 3-cookie file is returned as-is. -/
theorem C7_amended_getCurrentCookies_witness :
    (getCurrentCookies sIdle (.parsed storedThree)).2 = .ok storedThree :=
  (C7_amended_getCurrentCookies sIdle (.parsed storedThree)).2.1 storedThree
    (by decide)

/-- **C9 counterexample.** With an empty route directory (the Route
Directory yields no route — `getRandomProxy` returns `null`) but an
eligible target and a succeeding driver, the acquisition proceeds with no
proxy and resolves successfully instead of rejecting. -/
theorem C9_counterexample :
    envIdle.retry.proxies = [] ∧
    getRandomProxy envIdle.retry.proxies envIdle.proxyIdx = none ∧
    (refreshCookiesService sIdle 7 (some "EVT1") none envIdle).2.1 =
      .done (.ok ⟨1, 0, [⟨some 99999999⟩]⟩) := by
  decide

/-- **C9 (amended).** When no eligible target exists (and none is supplied)
the acquisition rejects with `'No events found in database'` before any
record is created; when the Route Directory yields no route, however, the
acquisition does *not* reject: `getRandomProxy` returns `null` and the run
proceeds with no route (succeeding when the driver succeeds). -/
theorem C9_amended_no_target_rejects_no_route_proceeds (s : ServiceState)
    (caller : Nat) (px : Option ProxyConfig) (env : RunEnv) (evs : String)
    (cs : List Cookie)
    (hidle : s.isRefreshing = false)
    (hstate : s.circuitBreaker.state = .CLOSED) :
    (env.randomEvent = none →
      (refreshCookiesService s caller none px env).2.1 =
        .done (.error ⟨"No events found in database"⟩) ∧
      (refreshCookiesService s caller none px env).1.ledger = s.ledger) ∧
    (getRandomProxy ([] : List RawProxy) env.proxyIdx = none) ∧
    (env.retry.proxies = [] → evs ≠ "" →
      cachedHit (loadCookiesFromFile env.retry.cookieFile)
        (env.now : Int) = false →
      attemptOutcome (env.retry.attempt 0) = .ok cs →
      env.cookiesWriteError = none →
      (refreshCookiesService s caller (some evs) none env).2.1 =
        .done (.ok ⟨cs.length, 0, cs⟩)) := by
  refine ⟨?_, rfl, ?_⟩
  · intro hev
    have hallow : s.circuitBreaker.allowsRequests env.now = true := by
      unfold CircuitBreaker.allowsRequests
      simp [hstate]
    simp [refreshCookiesService, hidle, hallow, getRandomEventId, hev]
  · intro _ hne hca hok hwr
    exact (run_first_attempt_success s caller evs none env cs hidle hstate hne
      hca hok hwr).1

/-- Witness for C9 (amended): no-target rejection and no-route success on
concrete states. -/
theorem C9_amended_no_target_rejects_no_route_proceeds_witness :
    ((refreshCookiesService sIdle 9 none none envNoEvent).2.1 =
        .done (.error ⟨"No events found in database"⟩) ∧
      (refreshCookiesService sIdle 9 none none envNoEvent).1.ledger =
        sIdle.ledger) ∧
    (refreshCookiesService sIdle 9 (some "EVT1") none envIdle).2.1 =
      .done (.ok ⟨1, 0, [⟨some 99999999⟩]⟩) :=
  ⟨(C9_amended_no_target_rejects_no_route_proceeds sIdle 9 none envNoEvent
      "EVT1" [] rfl rfl).1 rfl,
   (C9_amended_no_target_rejects_no_route_proceeds sIdle 9 none envIdle
      "EVT1" [⟨some 99999999⟩] rfl rfl).2.2 rfl (by decide) rfl rfl rfl⟩

/-- **C10.** `saveSession` returns normally for every file-system outcome
(read, parse, or write failure of the sessions file), and a logical
acquisition whose driver captured artifacts is still reported as success
when the session-snapshot write fails. -/
theorem C10_saveSession_never_throws (s : ServiceState) (caller : Nat)
    (evs : String) (px : Option ProxyConfig) (env : RunEnv) (cs : List Cookie)
    (old : List Session) (read : Except String (List Session)) (writeOk : Bool)
    (data : Session)
    (hidle : s.isRefreshing = false)
    (hstate : s.circuitBreaker.state = .CLOSED)
    (hne : evs ≠ "")
    (hca : cachedHit (loadCookiesFromFile env.retry.cookieFile)
      (env.now : Int) = false)
    (hok : attemptOutcome (env.retry.attempt 0) = .ok cs)
    (hwr : env.cookiesWriteError = none)
    (hsess : env.sessionsWriteOk = false) :
    (∃ l, saveSession old read writeOk data = .ok l) ∧
    (refreshCookiesService s caller (some evs) px env).2.1 =
      .done (.ok ⟨cs.length, 0, cs⟩) := by
  constructor
  · unfold saveSession
    cases read <;> cases writeOk <;> exact ⟨_, rfl⟩
  · exact (run_first_attempt_success s caller evs px env cs hidle hstate hne
      hca hok hwr).1

/-- Witness for C10: the session write fails, `saveSession` still returns,
and the acquisition still resolves with its artifacts. -/
theorem C10_saveSession_never_throws_witness :
    (∃ l, saveSession [] (.error "read failed") false sessDummy = .ok l) ∧
    (refreshCookiesService sIdle 10 (some "EVT1") none envSessFail).2.1 =
      .done (.ok ⟨1, 0, [⟨some 99999999⟩]⟩) :=
  C10_saveSession_never_throws sIdle 10 "EVT1" none envSessFail
    [⟨some 99999999⟩] [] (.error "read failed") false sessDummy
    rfl rfl (by decide) rfl rfl rfl rfl

/-- **C8 counterexample.** A run whose driver fails the first two
sub-attempts and succeeds on the third — three driver invocations — records
`retryCount = 0`, not 3, in the success AttemptRecord. -/
theorem C8_counterexample :
    (BrowserCookies.refreshCookies envThird.retry (envThird.now : Int)
      "EVT1" none).2.length = 3 ∧
    (refreshCookiesService sIdle 7 (some "EVT1") none envThird).1.ledger =
      [recC8] ∧
    recC8.status = .success ∧ recC8.retryCount = some 0 ∧
    recC8.retryCount ≠ some 3 := by
  decide

/-- **C8 (amended).** Every successful logical acquisition marks its
AttemptRecord `success` with `retryCount = 0` — the value hardcoded by
`performCookieRefresh` ("refreshCookies handles retries internally") — and
not the actual number of sub-attempts the retry loop used. -/
theorem C8_amended_success_records_zero (s : ServiceState) (caller : Nat)
    (ev : Option String) (px : Option ProxyConfig) (env : RunEnv)
    (r : PerformResult)
    (hidle : s.isRefreshing = false)
    (hfresh : ∀ rec ∈ s.ledger, rec.refreshId ≠ s.nextRefreshId)
    (hdone : (refreshCookiesService s caller ev px env).2.1 = .done (.ok r)) :
    r.retryCount = 0 ∧
    ∃ rec ∈ (refreshCookiesService s caller ev px env).1.ledger,
      rec.refreshId = s.nextRefreshId ∧ rec.status = .success ∧
      rec.retryCount = some 0 := by
  have hnb : ¬ s.isRefreshing = true := by simp [hidle]
  unfold refreshCookiesService at hdone ⊢
  rw [if_neg hnb] at hdone ⊢
  split at hdone
  · exfalso
    simp at hdone
  · rename_i hallow
    rw [if_neg hallow]
    generalize hsid :
      (match ev with
       | some e => if e ≠ "" then Except.ok e
                   else getRandomEventId env.randomEvent
       | none => getRandomEventId env.randomEvent) = sidRes at hdone ⊢
    cases sidRes with
    | error e =>
        exfalso
        simp at hdone
    | ok sid =>
        dsimp only at hdone ⊢
        generalize hpx :
          (match px with
           | some p => some p
           | none => getRandomProxy env.retry.proxies env.proxyIdx) =
          selPx at hdone ⊢
        split at hdone
        · rename_i rcs heqex
          dsimp only at hdone
          simp only [CallResult.done.injEq, Except.ok.injEq] at hdone
          have hop := execute_ok_of _ _ _ _ heqex
          have hrc := performCookieRefresh_retryCount _ _ _ _ _ _ hop
          constructor
          · rw [← hdone, hrc]
          · dsimp only
            rw [hrc, markSuccess_startRefresh s.ledger s.nextRefreshId sid
              _ _ _ _ _ hfresh]
            exact ⟨_, List.mem_append_right _ (List.mem_singleton_self _),
              rfl, rfl, rfl⟩
        · exfalso
          simp at hdone
        · exfalso
          simp at hdone

/-- Witness for C8 (amended): the `envThird` run resolves successfully and
its ledger record carries `retryCount = some 0`. -/
theorem C8_amended_success_records_zero_witness :
    (⟨2, 0, [⟨some 7⟩, ⟨some 8⟩]⟩ : PerformResult).retryCount = 0 ∧
    ∃ rec ∈ (refreshCookiesService sIdle 7 (some "EVT1") none envThird).1.ledger,
      rec.refreshId = sIdle.nextRefreshId ∧ rec.status = .success ∧
      rec.retryCount = some 0 :=
  C8_amended_success_records_zero sIdle 7 (some "EVT1") none envThird
    ⟨2, 0, [⟨some 7⟩, ⟨some 8⟩]⟩ rfl (by simp [sIdle]) (by decide)

/-- Witness for C1: both hypotheses discharged on concrete states. -/
theorem C1_single_flight_queue_witness :
    (refreshCookiesService sBusy 7 none none envIdle =
      ({ sBusy with refreshQueue := sBusy.refreshQueue ++ [7] }, .queued, [])) ∧
    (∃ out : Except SubError PerformResult,
      (refreshCookiesService sIdle 7 none none envIdle).2.1 = .done out ∧
      (refreshCookiesService sIdle 7 none none envIdle).2.2 =
        (sIdle.refreshQueue ++ envIdle.arrivals).map (fun c => (c, out)) ∧
      (refreshCookiesService sIdle 7 none none envIdle).1.refreshQueue = [] ∧
      (refreshCookiesService sIdle 7 none none envIdle).1.isRefreshing = false) :=
  ⟨(C1_single_flight_queue sBusy 7 none none envIdle).1 rfl,
   (C1_single_flight_queue sIdle 7 none none envIdle).2 rfl⟩

end CookieService
